import Mathlib

/-!
Shallow embedding of the awards-api workflow engine (FastAPI + SQLAlchemy)
and proofs about its exposed operations.

Sources embedded:
- app/models/cycle.py (CycleStatus enum, Cycle columns)
- app/models/nomination.py, panel_assignment.py, panel_review.py,
  panel_task.py, panel_member.py, form.py, award.py, user.py
- app/api/v1/cycles.py (create_cycle, update_cycle)
- app/api/v1/nominations.py (submit_nomination, list_nominations,
  update_nomination_status, delete_nomination, delete_all_nominations_for_cycle)
- app/api/v1/panel_assignments.py (assign_panels_to_nomination, submit_panel_review)
- app/api/v1/awards.py (finalize_awards, get_nominations_with_scores)
- app/core/lifecycle.py (auto_open_active_cycles, auto_close_expired_cycles)
- app/core/response.py (failure_response raises HTTPException, so every failure
  aborts the request before commit; get_db never commits, hence a failure leaves
  the database unchanged — modelled by returning the error without a state).

Dates and timestamps are modelled as integers (days / instants); UUIDs as Nat.
Nomination and assignment statuses are String columns in the source and are
modelled as String; CycleStatus is a Python enum and is modelled as an
inductive type, with enum member lookup modelled explicitly (the Python
runtime raises AttributeError for a missing member, which matters for
app/core/lifecycle.py).
-/

namespace Awards

/-- CycleStatus enum from app/models/cycle.py: DRAFT, OPEN, CLOSED, FINALIZED. -/
inductive CycleStatus
  | DRAFT
  | OPEN
  | CLOSED
  | FINALIZED
deriving DecidableEq, Repr

/-- String value of each CycleStatus member (the enum values in the source). -/
def CycleStatus.value : CycleStatus → String
  | .DRAFT => "DRAFT"
  | .OPEN => "OPEN"
  | .CLOSED => "CLOSED"
  | .FINALIZED => "FINALIZED"

/-- Python `CycleStatus(s)` constructor lookup: returns the member whose value
is `s`, or none (ValueError) when no member matches.  The Python enum in
app/models/cycle.py has exactly the four members below — in particular there is
no ACTIVE member. -/
def cycleStatusOfString : String → Option CycleStatus
  | "DRAFT" => some .DRAFT
  | "OPEN" => some .OPEN
  | "CLOSED" => some .CLOSED
  | "FINALIZED" => some .FINALIZED
  | _ => none

/-- Python attribute access `CycleStatus.<name>` on the enum class: succeeds only
for declared members; anything else raises AttributeError at the call site. -/
def cycleStatusMember : String → Option CycleStatus
  | "DRAFT" => some .DRAFT
  | "OPEN" => some .OPEN
  | "CLOSED" => some .CLOSED
  | "FINALIZED" => some .FINALIZED
  | _ => none

/-- UserRole enum from app/models/user.py. -/
inductive UserRole
  | HR
  | MANAGER
  | EMPLOYEE
  | PANEL
deriving DecidableEq, Repr

structure User where
  id : Nat
  role : UserRole
  is_active : Bool
deriving DecidableEq, Repr

/-- Cycle row (app/models/cycle.py).  Fields not used by any embedded
operation (name, description, quarter, year, timestamps) are omitted. -/
structure Cycle where
  id : Nat
  start_date : Int
  end_date : Int
  status : CycleStatus
  award_type_id : Option Nat
  is_active : Bool
deriving DecidableEq, Repr

structure AwardType where
  id : Nat
  is_active : Bool
deriving DecidableEq, Repr

structure Form where
  id : Nat
  is_active : Bool
deriving DecidableEq, Repr

structure FormField where
  form_id : Nat
  field_key : String
  is_required : Bool
deriving DecidableEq, Repr

structure FormAnswer where
  nomination_id : Nat
  field_key : String
  value : String
deriving DecidableEq, Repr

/-- Nomination row (app/models/nomination.py); `status` is a String(50) column
compared against string literals in the endpoints. -/
structure Nomination where
  id : Nat
  cycle_id : Nat
  form_id : Nat
  nominee_id : Nat
  nominated_by_id : Nat
  status : String
  submitted_at : Option Int
  created_at : Int
deriving DecidableEq, Repr

structure Panel where
  id : Nat
deriving DecidableEq, Repr

structure PanelMember where
  id : Nat
  panel_id : Nat
  user_id : Nat
deriving DecidableEq, Repr

structure PanelTask where
  id : Nat
  panel_id : Nat
  is_required : Bool
deriving DecidableEq, Repr

/-- PanelAssignment row (app/models/panel_assignment.py); the table has no
completed_at column, but submit_panel_review assigns a `completed_at`
attribute on the in-session object, modelled here as an Option field. -/
structure PanelAssignment where
  id : Nat
  nomination_id : Nat
  panel_id : Nat
  assigned_by : Nat
  status : String
  completed_at : Option Int
deriving DecidableEq, Repr

structure PanelReview where
  id : Nat
  panel_assignment_id : Nat
  panel_member_id : Nat
  panel_task_id : Nat
  score : Int
  reviewed_at : Int
deriving DecidableEq, Repr

structure Award where
  id : Nat
  cycle_id : Nat
  nomination_id : Nat
  winner_id : Nat
  is_active : Bool
  finalized_at : Option Int
deriving DecidableEq, Repr

/-- The relational store consumed through get_db. `next_id` generates fresh
primary keys. -/
structure DB where
  cycles : List Cycle
  users : List User
  award_types : List AwardType
  forms : List Form
  form_fields : List FormField
  form_answers : List FormAnswer
  nominations : List Nomination
  panels : List Panel
  panel_members : List PanelMember
  panel_tasks : List PanelTask
  panel_assignments : List PanelAssignment
  panel_reviews : List PanelReview
  awards : List Award
  next_id : Nat
deriving DecidableEq, Repr

/-- HTTPException raised by failure_response (app/core/response.py). -/
structure ApiError where
  status_code : Nat
  message : String
  error : String
deriving DecidableEq, Repr

/-- AttributeError raised by Python when an enum member is missing. -/
structure PyAttributeError where
  enum_name : String
  member : String
deriving DecidableEq, Repr

def findCycle (db : DB) (i : Nat) : Option Cycle :=
  db.cycles.find? (fun c => c.id == i)

def findUser (db : DB) (i : Nat) : Option User :=
  db.users.find? (fun u => u.id == i)

def findAwardType (db : DB) (i : Nat) : Option AwardType :=
  db.award_types.find? (fun a => a.id == i)

def findForm (db : DB) (i : Nat) : Option Form :=
  db.forms.find? (fun f => f.id == i)

def findNomination (db : DB) (i : Nat) : Option Nomination :=
  db.nominations.find? (fun n => n.id == i)

def findPanel (db : DB) (i : Nat) : Option Panel :=
  db.panels.find? (fun p => p.id == i)

def findAssignment (db : DB) (i : Nat) : Option PanelAssignment :=
  db.panel_assignments.find? (fun a => a.id == i)

def findTask (db : DB) (i : Nat) : Option PanelTask :=
  db.panel_tasks.find? (fun t => t.id == i)

/-- db.query(PanelMember).filter(panel_id == ..., user_id == ...).first() -/
def findPanelMember (db : DB) (panel_id user_id : Nat) : Option PanelMember :=
  db.panel_members.find? (fun m => m.panel_id == panel_id && m.user_id == user_id)

/-- Replace the cycle row with the mutated in-session object on commit. -/
def setCycle (db : DB) (c : Cycle) : DB :=
  { db with cycles := db.cycles.map (fun x => if x.id == c.id then c else x) }

/-- Payload CycleCreate (app/schemas/cycles.py); name/description/quarter/year
omitted (unused by the embedded logic). -/
structure CycleCreate where
  start_date : Int
  end_date : Int
  status : Option String
  award_type_id : Option Nat
deriving DecidableEq, Repr

/-- Payload CycleUpdate (app/schemas/cycles.py). -/
structure CycleUpdate where
  start_date : Option Int
  end_date : Option Int
  status : Option String
  award_type_id : Option Nat
  drop_cycle : Option Bool
deriving DecidableEq, Repr

/-- `CycleStatus(payload.status) if payload.status else CycleStatus.DRAFT`:
a falsy payload status (absent or empty) defaults to DRAFT, otherwise the
enum constructor is applied (ValueError on an unknown value → none). -/
def statusOrDraft : Option String → Option CycleStatus
  | none => some CycleStatus.DRAFT
  | some s => if s = "" then some CycleStatus.DRAFT else cycleStatusOfString s

/-- Award-type validation shared by create_cycle and update_cycle: when an
award_type_id is supplied it must reference an active AwardType. -/
def checkAwardType (db : DB) (msg : String) :
    Option Nat → Except ApiError (Option Nat)
  | none => Except.ok none
  | some i =>
    match findAwardType db i with
    | none => Except.error ⟨400, msg, "Invalid or inactive award type"⟩
    | some a =>
      if a.is_active then Except.ok (some i)
      else Except.error ⟨400, msg, "Invalid or inactive award type"⟩

/-- create_cycle (app/api/v1/cycles.py, POST /cycles).  The date check and the
status parse both abort via failure_response (which raises HTTPException). -/
def create_cycle (db : DB) (p : CycleCreate) : Except ApiError (DB × Nat) :=
  if p.end_date < p.start_date then
    Except.error ⟨400, "Cycle creation failed", "End date must be after start date"⟩
  else
    match statusOrDraft p.status with
    | none => Except.error ⟨400, "Cycle creation failed", "Invalid status"⟩
    | some st =>
      match checkAwardType db "Cycle creation failed" p.award_type_id with
      | Except.error e => Except.error e
      | Except.ok atid =>
        let c : Cycle :=
          { id := db.next_id, start_date := p.start_date, end_date := p.end_date,
            status := st, award_type_id := atid, is_active := true }
        Except.ok ({ db with cycles := db.cycles ++ [c], next_id := db.next_id + 1 },
                   db.next_id)

/-- Drop-cycle cascade in update_cycle: delete all Awards of the cycle, then
panel reviews of assignments of the cycle's nominations, those assignments,
the nominations' form answers, and finally the nominations themselves. -/
def dropCycleData (db : DB) (cycle_id : Nat) : DB :=
  let nomIds := (db.nominations.filter (fun n => n.cycle_id == cycle_id)).map (fun n => n.id)
  let asgIds := (db.panel_assignments.filter
      (fun a => nomIds.contains a.nomination_id)).map (fun a => a.id)
  { db with
    awards := db.awards.filter (fun a => a.cycle_id != cycle_id),
    panel_reviews := db.panel_reviews.filter
      (fun r => !asgIds.contains r.panel_assignment_id),
    panel_assignments := db.panel_assignments.filter
      (fun a => !nomIds.contains a.nomination_id),
    form_answers := db.form_answers.filter
      (fun fa => !nomIds.contains fa.nomination_id),
    nominations := db.nominations.filter (fun n => n.cycle_id != cycle_id) }

/-- Tail of update_cycle after the status branch: the award_type_id patch,
then commit of the mutated cycle row. -/
def finishCycleUpdate (db : DB) (c : Cycle) (p : CycleUpdate) : Except ApiError DB :=
  match p.award_type_id with
  | none => Except.ok (setCycle db c)
  | some i =>
    match checkAwardType db "Update failed" (some i) with
    | Except.error e => Except.error e
    | Except.ok atid => Except.ok (setCycle db { c with award_type_id := atid })

/-- update_cycle (app/api/v1/cycles.py, PATCH /cycles/:id).  Field patches are
applied in source order; the end-date check runs only when the patch contains
end_date; the status patch accepts any valid CycleStatus value; closing a
not-yet-closed cycle before its end_date with drop_cycle=true cascades
deletion of the cycle's dependent data before the status change. -/
def update_cycle (db : DB) (cycle_id : Nat) (p : CycleUpdate) (today : Int) :
    Except ApiError DB :=
  match findCycle db cycle_id with
  | none => Except.error ⟨404, "Cycle not found", "Cycle does not exist"⟩
  | some c0 =>
    let c2 : Cycle :=
      { c0 with
        start_date := p.start_date.getD c0.start_date,
        end_date := p.end_date.getD c0.end_date }
    if p.end_date.isSome ∧ c2.end_date < c2.start_date then
      Except.error ⟨400, "Update failed", "End date must be after start date"⟩
    else
      match p.status with
      | none => finishCycleUpdate db c2 p
      | some s =>
        match cycleStatusOfString s with
        | none => Except.error ⟨400, "Update failed", "Invalid status"⟩
        | some ns =>
          let db1 :=
            if ns = CycleStatus.CLOSED ∧ c2.status ≠ CycleStatus.CLOSED ∧
                today < c2.end_date ∧ p.drop_cycle = some true then
              dropCycleData db cycle_id
            else db
          finishCycleUpdate db1 { c2 with status := ns } p

/-- Active awards of a cycle (filter used by finalize_awards). -/
def activeAwardsOfCycle (db : DB) (cycle_id : Nat) : List Award :=
  db.awards.filter (fun a => a.cycle_id == cycle_id && a.is_active)

/-- finalize_awards (app/api/v1/awards.py, POST /awards/cycle/:id/finalize):
rejects a missing cycle, an already FINALIZED cycle, and a cycle without
active awards; otherwise stamps one shared finalized_at on every active award
of the cycle and sets the cycle status to FINALIZED. -/
def finalize_awards (db : DB) (cycle_id : Nat) (now : Int) :
    Except ApiError (DB × Nat) :=
  match findCycle db cycle_id with
  | none => Except.error ⟨404, "Finalization failed", "Cycle not found"⟩
  | some c =>
    if c.status = CycleStatus.FINALIZED then
      Except.error ⟨400, "Finalization failed", "Cycle already finalized"⟩
    else
      let awards := activeAwardsOfCycle db cycle_id
      if awards.isEmpty then
        Except.error ⟨400, "Finalization failed", "No awards found for this cycle"⟩
      else
        let db1 := { db with
          awards := db.awards.map (fun a =>
            if a.cycle_id == cycle_id && a.is_active then
              { a with finalized_at := some now }
            else a) }
        Except.ok (setCycle db1 { c with status := CycleStatus.FINALIZED }, awards.length)

/-- auto_open_active_cycles (app/core/lifecycle.py): the query filters on
`CycleStatus.ACTIVE`, an attribute access on the enum class that is evaluated
when the function runs; the enum in app/models/cycle.py has no ACTIVE member,
so the access raises AttributeError. -/
def auto_open_active_cycles (db : DB) (today : Int) :
    Except PyAttributeError (DB × Nat) :=
  match cycleStatusMember "ACTIVE" with
  | none => Except.error ⟨"CycleStatus", "ACTIVE"⟩
  | some st =>
    let toOpen := db.cycles.filter
      (fun c => decide (c.status = st ∧ c.start_date ≤ today ∧ today ≤ c.end_date))
    Except.ok
      ({ db with cycles := db.cycles.map (fun c =>
          if c.status = st ∧ c.start_date ≤ today ∧ today ≤ c.end_date then
            { c with status := CycleStatus.OPEN }
          else c) },
       toOpen.length)

/-- auto_close_expired_cycles (app/core/lifecycle.py): every OPEN cycle whose
end_date is strictly in the past becomes CLOSED; returns the count. -/
def auto_close_expired_cycles (db : DB) (today : Int) : DB × Nat :=
  let expired := db.cycles.filter
    (fun c => decide (c.status = CycleStatus.OPEN ∧ c.end_date < today))
  ({ db with cycles := db.cycles.map (fun c =>
      if c.status = CycleStatus.OPEN ∧ c.end_date < today then
        { c with status := CycleStatus.CLOSED }
      else c) },
   expired.length)

/-- Payload FormAnswerCreate (app/schemas/nominations.py). -/
structure FormAnswerCreate where
  field_key : String
  value : String
deriving DecidableEq, Repr

/-- Payload NominationCreate (app/schemas/nominations.py). -/
structure NominationCreate where
  cycle_id : Nat
  form_id : Nat
  nominee_id : Nat
  answers : List FormAnswerCreate
deriving DecidableEq, Repr

/-- The three non-terminal nomination statuses used in the duplicate check of
submit_nomination (app/api/v1/nominations.py line 74). -/
def nonTerminalStatuses : List String := ["SUBMITTED", "PANEL_REVIEW", "HR_REVIEW"]

/-- db.query(Nomination).filter(cycle, nominee, status in non-terminal).first() -/
def findExistingNonTerminal (db : DB) (cycle_id nominee_id : Nat) : Option Nomination :=
  db.nominations.find? (fun n =>
    n.cycle_id == cycle_id && n.nominee_id == nominee_id &&
    nonTerminalStatuses.contains n.status)

/-- field_keys of required FormFields of a form. -/
def requiredFieldKeys (db : DB) (form_id : Nat) : List String :=
  (db.form_fields.filter (fun f => f.form_id == form_id && f.is_required)).map
    (fun f => f.field_key)

/-- required_keys - answer_keys in submit_nomination. -/
def missingKeys (db : DB) (form_id : Nat) (answers : List FormAnswerCreate) : List String :=
  (requiredFieldKeys db form_id).filter
    (fun k => !(answers.map (fun a => a.field_key)).contains k)

/-- submit_nomination (app/api/v1/nominations.py, POST /nominations). -/
def submit_nomination (db : DB) (p : NominationCreate) (user_id : Nat)
    (today now : Int) : Except ApiError (DB × Nat) :=
  match findCycle db p.cycle_id with
  | none => Except.error ⟨404, "Nomination failed", "Cycle not found"⟩
  | some cy =>
    if cy.status ≠ CycleStatus.OPEN then
      Except.error ⟨400, "Nomination failed",
        "Cycle is " ++ cy.status.value ++ ". Must be OPEN."⟩
    else if today < cy.start_date then
      Except.error ⟨400, "Nomination failed", "The nomination window has not opened yet."⟩
    else if today > cy.end_date then
      Except.error ⟨400, "Nomination failed",
        "The nomination window for this cycle has already closed."⟩
    else
      match findForm db p.form_id with
      | none => Except.error ⟨404, "Nomination failed", "Form not found"⟩
      | some f =>
        if ¬f.is_active then Except.error ⟨404, "Nomination failed", "Form not found"⟩
        else
          match findUser db p.nominee_id with
          | none => Except.error ⟨404, "Nomination failed", "Invalid nominee"⟩
          | some u =>
            if ¬u.is_active then
              Except.error ⟨404, "Nomination failed", "Invalid nominee"⟩
            else
              match findExistingNonTerminal db p.cycle_id p.nominee_id with
              | some _ =>
                Except.error ⟨400, "Nomination failed",
                  "Nomination already exists for this employee"⟩
              | none =>
                let missing := missingKeys db p.form_id p.answers
                if missing ≠ [] then
                  Except.error ⟨400, "Nomination failed",
                    "Missing required fields: " ++ String.intercalate ", " missing⟩
                else
                  let nid := db.next_id
                  let nom : Nomination :=
                    { id := nid, cycle_id := p.cycle_id, form_id := p.form_id,
                      nominee_id := p.nominee_id, nominated_by_id := user_id,
                      status := "SUBMITTED", submitted_at := some now, created_at := now }
                  let newAnswers := p.answers.map
                    (fun a => FormAnswer.mk nid a.field_key a.value)
                  Except.ok ({ db with
                    nominations := db.nominations ++ [nom],
                    form_answers := db.form_answers ++ newAnswers,
                    next_id := nid + 1 }, nid)

/-- The valid target statuses accepted by update_nomination_status. -/
def validNominationStatuses : List String :=
  ["SUBMITTED", "PANEL_REVIEW", "HR_REVIEW", "FINALIZED"]

/-- Overwrite one nomination's status (nomination.status = ...; commit). -/
def setNominationStatus (db : DB) (nid : Nat) (s : String) : DB :=
  { db with nominations := (db.nominations.map
      (fun n => if n.id == nid then { n with status := s } else n)) }

/-- update_nomination_status (app/api/v1/nominations.py, PATCH
/nominations/:id/status, HR only): a FINALIZED target demands cycle status
CLOSED or FINALIZED and current nomination status HR_REVIEW; every other
valid target is applied unconditionally. -/
def update_nomination_status (db : DB) (nomination_id : Nat) (status : String) :
    Except ApiError DB :=
  if ¬validNominationStatuses.contains status then
    Except.error ⟨400, "Invalid", "Invalid status"⟩
  else
    match findNomination db nomination_id with
    | none => Except.error ⟨404, "Not found", "Nomination not found"⟩
    | some nom =>
      match findCycle db nom.cycle_id with
      | none => Except.error ⟨404, "Not found", "Cycle not found"⟩
      | some cy =>
        if status = "FINALIZED" ∧ cy.status ≠ CycleStatus.CLOSED ∧
            cy.status ≠ CycleStatus.FINALIZED then
          Except.error ⟨400, "Invalid operation",
            "Cannot finalize nominations until the nomination window is closed"⟩
        else if status = "FINALIZED" ∧ nom.status ≠ "HR_REVIEW" then
          Except.error ⟨400, "Invalid operation",
            "Can only finalize nominations that are in HR_REVIEW status"⟩
        else
          Except.ok (setNominationStatus db nomination_id status)

/-- delete_nomination (app/api/v1/nominations.py, DELETE /nominations/:id). -/
def delete_nomination (db : DB) (nomination_id : Nat) : Except ApiError DB :=
  match findNomination db nomination_id with
  | none => Except.error ⟨404, "Not found", "Nomination not found"⟩
  | some _ =>
    match db.awards.find? (fun a => a.nomination_id == nomination_id && a.is_active) with
    | some _ =>
      Except.error ⟨400, "Deletion failed",
        "Cannot delete nomination with associated award. Delete the award first."⟩
    | none =>
      let asgIds := (db.panel_assignments.filter
        (fun a => a.nomination_id == nomination_id)).map (fun a => a.id)
      Except.ok { db with
        panel_reviews := db.panel_reviews.filter
          (fun r => !asgIds.contains r.panel_assignment_id),
        panel_assignments := db.panel_assignments.filter
          (fun a => a.nomination_id != nomination_id),
        form_answers := db.form_answers.filter
          (fun fa => fa.nomination_id != nomination_id),
        nominations := db.nominations.filter (fun n => n.id != nomination_id) }

/-- delete_all_nominations_for_cycle (app/api/v1/nominations.py, DELETE
/nominations/cycle/:id/all); an empty cycle is a success with count 0. -/
def delete_all_nominations_for_cycle (db : DB) (cycle_id : Nat) :
    Except ApiError (DB × Nat) :=
  match findCycle db cycle_id with
  | none => Except.error ⟨404, "Not found", "Cycle not found"⟩
  | some _ =>
    let noms := db.nominations.filter (fun n => n.cycle_id == cycle_id)
    if noms.isEmpty then Except.ok (db, 0)
    else
      let nomIds := noms.map (fun n => n.id)
      let awardCount := (db.awards.filter
        (fun a => nomIds.contains a.nomination_id && a.is_active)).length
      if awardCount > 0 then
        Except.error ⟨400, "Deletion failed",
          "Cannot delete nominations with associated awards. Delete the awards first."⟩
      else
        let asgIds := (db.panel_assignments.filter
          (fun a => nomIds.contains a.nomination_id)).map (fun a => a.id)
        Except.ok ({ db with
          panel_reviews := db.panel_reviews.filter
            (fun r => !asgIds.contains r.panel_assignment_id),
          panel_assignments := db.panel_assignments.filter
            (fun a => !nomIds.contains a.nomination_id),
          form_answers := db.form_answers.filter
            (fun fa => !nomIds.contains fa.nomination_id),
          nominations := db.nominations.filter (fun n => n.cycle_id != cycle_id) },
          noms.length)

/-- The PANEL-role subquery of list_nominations: nomination ids of panel
assignments joined with PanelReview — i.e. assignments having at least one
review by any panel member; the caller's identity does not appear in it. -/
def reviewedNominationIds (db : DB) : List Nat :=
  (db.panel_assignments.filter (fun a =>
    db.panel_reviews.any (fun r => r.panel_assignment_id == a.id))).map
    (fun a => a.nomination_id)

/-- list_nominations (app/api/v1/nominations.py, GET /nominations): optional
cycle and status filters (a falsy status string is ignored, as in Python),
MANAGER restricted to self-authored rows, PANEL restricted to the reviewed
subquery, ordered by created_at descending (stable, as list.sort in Python). -/
def list_nominations (db : DB) (user : User) (cycle_id : Option Nat)
    (status : Option String) : List Nomination :=
  let q0 := db.nominations
  let q1 : List Nomination := match cycle_id with
    | some c => q0.filter (fun n => n.cycle_id == c)
    | none => q0
  let q2 : List Nomination := match status with
    | some s => if s = "" then q1 else q1.filter (fun n => n.status == s)
    | none => q1
  let q3 := if user.role = UserRole.MANAGER then
      q2.filter (fun n => n.nominated_by_id == user.id)
    else q2
  let q4 := if user.role = UserRole.PANEL then
      q3.filter (fun n => (reviewedNominationIds db).contains n.id)
    else q3
  q4.mergeSort (fun a b => decide (b.created_at ≤ a.created_at))

/-- Loop body of assign_panels_to_nomination: walk payload.panel_ids in order,
skipping panels already assigned (per the pre-loop snapshot of existing
assignments), aborting on an unknown panel, and allocating fresh ids for the
new PENDING assignments. -/
def buildNewAssignments (db : DB) (nomination_id user_id : Nat)
    (existingPanelIds : List Nat) (panel_ids : List Nat) (nextId : Nat) :
    Except ApiError (List PanelAssignment × Nat) :=
  match panel_ids with
  | [] => Except.ok ([], nextId)
  | pid :: rest =>
    if existingPanelIds.contains pid then
      buildNewAssignments db nomination_id user_id existingPanelIds rest nextId
    else
      match findPanel db pid with
      | none => Except.error ⟨404, "Panel not found", "Invalid panel"⟩
      | some _ =>
        match buildNewAssignments db nomination_id user_id existingPanelIds rest
            (nextId + 1) with
        | Except.error e => Except.error e
        | Except.ok (xs, nid) =>
          Except.ok (PanelAssignment.mk nextId nomination_id pid user_id "PENDING" none
            :: xs, nid)

/-- assign_panels_to_nomination (app/api/v1/panel_assignments.py, POST
/panel-assignments/nomination/:id/assign, HR only): already-assigned panels
are skipped; zero new assignments is a 400 failure; on success the new
assignments start PENDING and the nomination status is forced to
PANEL_REVIEW. -/
def assign_panels_to_nomination (db : DB) (nomination_id : Nat)
    (panel_ids : List Nat) (user_id : Nat) : Except ApiError DB :=
  match findNomination db nomination_id with
  | none => Except.error ⟨404, "Nomination not found", "Invalid nomination"⟩
  | some _ =>
    let existingPanelIds := (db.panel_assignments.filter
      (fun a => a.nomination_id == nomination_id)).map (fun a => a.panel_id)
    match buildNewAssignments db nomination_id user_id existingPanelIds panel_ids
        db.next_id with
    | Except.error e => Except.error e
    | Except.ok (newAsgs, nid) =>
      if newAsgs.length = 0 then
        Except.error ⟨400, "No new panels assigned",
          "All selected panels are already assigned to this nomination"⟩
      else
        let db1 : DB :=
          { db with
            panel_assignments := db.panel_assignments ++ newAsgs,
            next_id := nid }
        Except.ok (setNominationStatus db1 nomination_id "PANEL_REVIEW")

/-- Upsert of the (assignment, member, task) review row in submit_panel_review:
an existing row gets the new score/reviewed_at, otherwise a fresh row is added. -/
def upsertReview (db : DB) (aid mid tid : Nat) (score : Int) (now : Int) : DB :=
  match db.panel_reviews.find? (fun r =>
      r.panel_assignment_id == aid && r.panel_member_id == mid &&
      r.panel_task_id == tid) with
  | some _ =>
    { db with panel_reviews := (db.panel_reviews.map (fun r =>
        if r.panel_assignment_id == aid && r.panel_member_id == mid &&
            r.panel_task_id == tid then
          { r with score := score, reviewed_at := now }
        else r)) }
  | none =>
    { db with
      panel_reviews := db.panel_reviews ++
        [PanelReview.mk db.next_id aid mid tid score now],
      next_id := db.next_id + 1 }

/-- ids of the required tasks of a panel. -/
def requiredTaskIds (db : DB) (panel_id : Nat) : List Nat :=
  (db.panel_tasks.filter (fun t => t.panel_id == panel_id && t.is_required)).map
    (fun t => t.id)

/-- task ids this member has reviewed for this assignment. -/
def reviewedTaskIds (db : DB) (aid mid : Nat) : List Nat :=
  (db.panel_reviews.filter (fun r =>
    r.panel_assignment_id == aid && r.panel_member_id == mid)).map
    (fun r => r.panel_task_id)

/-- Python set.issubset on the id sets. -/
def subsetOf (xs ys : List Nat) : Bool := xs.all (fun x => ys.contains x)

/-- assignment.status = COMPLETED; assignment.completed_at = now. -/
def setAssignmentCompleted (db : DB) (aid : Nat) (now : Int) : DB :=
  { db with panel_assignments := (db.panel_assignments.map (fun a =>
      if a.id == aid then { a with status := "COMPLETED", completed_at := some now }
      else a)) }

/-- all(a.status == COMPLETED for a in assignments of the nomination). -/
def allAssignmentsCompleted (db : DB) (nomination_id : Nat) : Bool :=
  (db.panel_assignments.filter (fun a => a.nomination_id == nomination_id)).all
    (fun a => a.status == "COMPLETED")

/-- submit_panel_review (app/api/v1/panel_assignments.py, POST
/panel-assignments/:aid/tasks/:tid/review): membership and task checks, then
the review upsert; if the submitting member has now reviewed every required
task of the panel the assignment is marked COMPLETED, and — only inside that
branch — if every assignment of the nomination is COMPLETED the nomination is
promoted to HR_REVIEW. -/
def submit_panel_review (db : DB) (assignment_id task_id user_id : Nat)
    (score : Int) (now : Int) : Except ApiError DB :=
  match findAssignment db assignment_id with
  | none => Except.error ⟨404, "Panel assignment not found", "Invalid assignment"⟩
  | some a =>
    match findPanelMember db a.panel_id user_id with
    | none => Except.error ⟨403, "You are not a member of this panel", "Access denied"⟩
    | some m =>
      match findTask db task_id with
      | none => Except.error ⟨400, "Task does not belong to this panel", "Invalid task"⟩
      | some t =>
        if t.panel_id ≠ a.panel_id then
          Except.error ⟨400, "Task does not belong to this panel", "Invalid task"⟩
        else
          let db1 := upsertReview db assignment_id m.id task_id score now
          if subsetOf (requiredTaskIds db1 a.panel_id)
              (reviewedTaskIds db1 assignment_id m.id) then
            let db2 := setAssignmentCompleted db1 assignment_id now
            if allAssignmentsCompleted db2 a.nomination_id then
              Except.ok (setNominationStatus db2 a.nomination_id "HR_REVIEW")
            else Except.ok db2
          else Except.ok db1

/-- Reviews tied to a nomination through the PanelAssignment join (used for
avg and count in get_nominations_with_scores). -/
def reviewsOfNomination (db : DB) (nomination_id : Nat) : List PanelReview :=
  db.panel_reviews.filter (fun r =>
    db.panel_assignments.any (fun a =>
      a.id == r.panel_assignment_id && a.nomination_id == nomination_id))

/-- One row of the nominations-with-scores response (score fields only). -/
structure ScoreRow where
  nomination_id : Nat
  average_score : Option ℚ
  review_count : Nat
deriving DecidableEq, Repr

/-- Exact average of a nomination's review scores, none when no review exists.
This is the spec-level notion of "the true average of its review scores". -/
def specAverageScore (db : DB) (nomination_id : Nat) : Option ℚ :=
  let rs := reviewsOfNomination db nomination_id
  if rs.length = 0 then none
  else some ((rs.map (fun r => (r.score : ℚ))).sum / (rs.length : ℚ))

/-- Row construction in get_nominations_with_scores.  The SQL AVG is NULL when
no review exists; the response field is `float(avg_score) if avg_score else
None`, and a Decimal average of 0 is falsy in Python, so a zero average is
also rendered as null. -/
def scoreRowOf (db : DB) (n : Nomination) : ScoreRow :=
  let rs := reviewsOfNomination db n.id
  let avg : Option ℚ := if rs.length = 0 then none
    else some ((rs.map (fun r => (r.score : ℚ))).sum / (rs.length : ℚ))
  let displayed : Option ℚ := match avg with
    | none => none
    | some a => if a = 0 then none else some a
  { nomination_id := n.id, average_score := displayed, review_count := rs.length }

/-- Sort key of the final `result.sort(key=lambda x: x["average_score"] or 0,
reverse=True)`: a null average counts as 0. -/
def scoreSortKey (r : ScoreRow) : ℚ := r.average_score.getD 0

/-- get_nominations_with_scores (app/api/v1/awards.py, GET
/awards/cycle/:id/nominations-with-scores): nominations of the cycle in
PANEL_REVIEW/HR_REVIEW/FINALIZED, one score row each, sorted by average score
descending with null ordered as 0 (Python list.sort with reverse=True is a
stable descending sort). -/
def get_nominations_with_scores (db : DB) (cycle_id : Nat) :
    Except ApiError (List ScoreRow) :=
  match findCycle db cycle_id with
  | none => Except.error ⟨404, "Cycle not found", "Cycle does not exist"⟩
  | some _ =>
    let noms := db.nominations.filter (fun n =>
      n.cycle_id == cycle_id &&
      (["PANEL_REVIEW", "HR_REVIEW", "FINALIZED"] : List String).contains n.status)
    let rows := noms.map (scoreRowOf db)
    Except.ok (rows.mergeSort (fun x y => decide (scoreSortKey y ≤ scoreSortKey x)))

/-! Derived notions used by the theorems. -/

/-- Forward order of the cycle state machine DRAFT → OPEN → CLOSED → FINALIZED. -/
def statusRank : CycleStatus → Nat
  | CycleStatus.DRAFT => 0
  | CycleStatus.OPEN => 1
  | CycleStatus.CLOSED => 2
  | CycleStatus.FINALIZED => 3

/-- Status of a nomination row, if it exists. -/
def nominationStatus (db : DB) (nid : Nat) : Option String :=
  (findNomination db nid).map (fun n => n.status)

/-- Two nomination rows witness a violation of the per-(cycle, nominee)
uniqueness of non-terminal nominations. -/
def nomsConflict (a b : Nomination) : Bool :=
  a.cycle_id == b.cycle_id && a.nominee_id == b.nominee_id &&
  nonTerminalStatuses.contains a.status && nonTerminalStatuses.contains b.status

/-- No two distinct nomination rows conflict: for every (cycle, nominee) pair
at most one nomination is in a non-terminal status. -/
def pairInvB : List Nomination → Bool
  | [] => true
  | x :: xs => xs.all (fun y => !nomsConflict x y) && pairInvB xs

/-- The invariant of the claim, over the whole store. -/
def pairInvariant (db : DB) : Prop := pairInvB db.nominations = true

/-- Python falsiness applied to the average: None stays None and a zero
average is also rendered as None (`float(avg) if avg else None`). -/
def pyDisplay : Option ℚ → Option ℚ
  | none => none
  | some a => if a = 0 then none else some a

/-! Concrete stores used by counterexamples and witnesses. -/

def emptyDB : DB :=
  { cycles := [], users := [], award_types := [], forms := [], form_fields := [],
    form_answers := [], nominations := [], panels := [], panel_members := [],
    panel_tasks := [], panel_assignments := [], panel_reviews := [], awards := [],
    next_id := 1 }

/-- Users, and one active form with no required fields, from which the C1
trace starts; there are no cycles and no nominations yet. -/
def c1BaseDB : DB :=
  { emptyDB with
    users := [⟨1, UserRole.HR, true⟩, ⟨2, UserRole.MANAGER, true⟩,
              ⟨3, UserRole.EMPLOYEE, true⟩],
    forms := [⟨6, true⟩],
    next_id := 100 }

/-- A run of exposed operations only: create an OPEN cycle, submit a
nomination, walk it to HR_REVIEW, close the cycle, finalize the nomination,
reopen the cycle (update_cycle has no forward-only guard), submit a second
nomination for the same (cycle, nominee), then move the finalized one back to
SUBMITTED (update_nomination_status is unconditional for non-FINALIZED
targets).  The result holds two non-terminal nominations for one pair. -/
def c1Trace : Except ApiError DB := do
  let (db1, cid) ← create_cycle c1BaseDB ⟨0, 20, some "OPEN", none⟩
  let (db2, n1) ← submit_nomination db1 ⟨cid, 6, 3, []⟩ 2 10 1000
  let db3 ← update_nomination_status db2 n1 "HR_REVIEW"
  let db4 ← update_cycle db3 cid ⟨none, none, some "CLOSED", none, none⟩ 10
  let db5 ← update_nomination_status db4 n1 "FINALIZED"
  let db6 ← update_cycle db5 cid ⟨none, none, some "OPEN", none, none⟩ 10
  let (db7, _) ← submit_nomination db6 ⟨cid, 6, 3, []⟩ 2 10 2000
  update_nomination_status db7 n1 "SUBMITTED"

/-- A store with a FINALIZED and a SUBMITTED nomination for the same
(cycle, nominee) pair and one unassigned panel. -/
def c1AssignDB : DB :=
  { emptyDB with
    nominations := [⟨101, 100, 6, 3, 2, "FINALIZED", some 1000, 1000⟩,
                    ⟨102, 100, 6, 3, 2, "SUBMITTED", some 2000, 2000⟩],
    panels := [⟨7⟩],
    next_id := 200 }

def c2DB : DB :=
  { emptyDB with
    cycles := [⟨40, 0, 20, CycleStatus.CLOSED, none, true⟩],
    next_id := 50 }

def c2DropDB : DB :=
  { emptyDB with
    cycles := [⟨41, 0, 20, CycleStatus.FINALIZED, none, true⟩],
    next_id := 50 }

def c4DB : DB :=
  { emptyDB with
    cycles := [⟨42, 0, 10, CycleStatus.OPEN, none, true⟩],
    next_id := 50 }

/-- A nomination whose only review was written by another panel member
(member 62 belongs to user 5); the caller (user 4, role PANEL) has reviewed
nothing at all. -/
def c5DB : DB :=
  { emptyDB with
    users := [⟨4, UserRole.PANEL, true⟩, ⟨5, UserRole.PANEL, true⟩],
    cycles := [⟨50, 0, 20, CycleStatus.OPEN, none, true⟩],
    nominations := [⟨60, 50, 6, 3, 2, "PANEL_REVIEW", some 1000, 1000⟩],
    panels := [⟨61⟩],
    panel_members := [⟨62, 61, 5⟩],
    panel_tasks := [⟨65, 61, true⟩],
    panel_assignments := [⟨63, 60, 61, 1, "PENDING", none⟩],
    panel_reviews := [⟨64, 63, 62, 65, 4, 1100⟩],
    next_id := 200 }

def c5Caller : User := ⟨4, UserRole.PANEL, true⟩

/-- A FINALIZED nomination whose single assignment is COMPLETED (member 11
reviewed both required tasks); member 12 (user 5) has reviewed nothing yet. -/
def c6DB : DB :=
  { emptyDB with
    users := [⟨4, UserRole.PANEL, true⟩, ⟨5, UserRole.PANEL, true⟩],
    cycles := [⟨50, 0, 20, CycleStatus.FINALIZED, none, true⟩],
    nominations := [⟨20, 50, 6, 3, 2, "FINALIZED", some 1000, 1000⟩],
    panels := [⟨10⟩],
    panel_members := [⟨11, 10, 4⟩, ⟨12, 10, 5⟩],
    panel_tasks := [⟨13, 10, true⟩, ⟨14, 10, true⟩],
    panel_assignments := [⟨30, 20, 10, 1, "COMPLETED", some 1500⟩],
    panel_reviews := [⟨31, 30, 11, 13, 5, 1200⟩, ⟨32, 30, 11, 14, 4, 1300⟩],
    next_id := 300 }

/-- A nomination with exactly one review whose score is 0 (the review schema
allows score ≥ 0). -/
def c9DB : DB :=
  { emptyDB with
    cycles := [⟨50, 0, 20, CycleStatus.CLOSED, none, true⟩],
    nominations := [⟨60, 50, 6, 3, 2, "HR_REVIEW", some 1000, 1000⟩],
    panels := [⟨61⟩],
    panel_members := [⟨62, 61, 5⟩],
    panel_tasks := [⟨65, 61, true⟩],
    panel_assignments := [⟨63, 60, 61, 1, "COMPLETED", none⟩],
    panel_reviews := [⟨64, 63, 62, 65, 0, 1100⟩],
    next_id := 200 }

/-! Theorems. -/

/-- C3 (code_bug): the auto-open sweep of app/core/lifecycle.py filters on
`CycleStatus.ACTIVE`, but the CycleStatus enum of app/models/cycle.py has no
ACTIVE member (only the database-level enum kept it for backward
compatibility), so every invocation of auto_open_active_cycles raises
AttributeError before touching any cycle — it can never move an ACTIVE cycle
to OPEN as the spec describes. -/
theorem c3_auto_open_always_raises (db : DB) (today : Int) :
    auto_open_active_cycles db today = Except.error ⟨"CycleStatus", "ACTIVE"⟩ := rfl

/-- C1 counterexample: starting from a store with no nominations (which
satisfies pairInvariant), the chain of exposed operations in c1Trace succeeds
and ends with two non-terminal nominations for one (cycle, nominee) pair;
moreover assign_panels_to_nomination alone breaks the invariant on
c1AssignDB by forcing a FINALIZED nomination back to PANEL_REVIEW while a
SUBMITTED one exists for the same pair. -/
theorem c1_counterexample :
    pairInvB c1BaseDB.nominations = true ∧
    c1Trace.toOption.map (fun db => pairInvB db.nominations) = some false ∧
    pairInvB c1AssignDB.nominations = true ∧
    (assign_panels_to_nomination c1AssignDB 101 [7] 1).toOption.map
      (fun db => pairInvB db.nominations) = some false := by decide

/-- C2 counterexample: update_cycle applies any requested valid status, so a
CLOSED cycle is moved back to DRAFT, and the drop-cycle path moves a
FINALIZED cycle back to CLOSED — both strictly backward in statusRank. -/
theorem c2_counterexample :
    ((findCycle c2DB 40).map (fun c => c.status) = some CycleStatus.CLOSED ∧
      (update_cycle c2DB 40 ⟨none, none, some "DRAFT", none, none⟩ 10).toOption.map
        (fun db => (findCycle db 40).map (fun c => c.status)) =
        some (some CycleStatus.DRAFT) ∧
      statusRank CycleStatus.DRAFT < statusRank CycleStatus.CLOSED) ∧
    ((findCycle c2DropDB 41).map (fun c => c.status) = some CycleStatus.FINALIZED ∧
      (update_cycle c2DropDB 41 ⟨none, none, some "CLOSED", none, some true⟩ 10).toOption.map
        (fun db => (findCycle db 41).map (fun c => c.status)) =
        some (some CycleStatus.CLOSED) ∧
      statusRank CycleStatus.CLOSED < statusRank CycleStatus.FINALIZED) := by decide

/-- C4 counterexample: a patch that contains only start_date skips the date
check of update_cycle, so moving start_date past end_date succeeds and leaves
a cycle with end_date < start_date. -/
theorem c4_counterexample :
    (update_cycle c4DB 42 ⟨some 20, none, none, none, none⟩ 5).toOption.map
      (fun db => (findCycle db 42).map (fun c => decide (c.end_date < c.start_date))) =
      some (some true) := by decide

unseal List.merge List.mergeSort in
/-- C5 counterexample: the PANEL branch of list_nominations never consults the
caller: user 4 (role PANEL) has authored no review — no review row belongs to
a panel member with user_id 4 — yet nomination 60, whose only review was
written by member 62 of user 5, is returned to user 4. -/
theorem c5_counterexample :
    (list_nominations c5DB c5Caller none none).map (fun n => n.id) = [60] ∧
    c5DB.panel_reviews.filter (fun r =>
      c5DB.panel_members.any (fun m =>
        m.id == r.panel_member_id && m.user_id == c5Caller.id)) = [] := by decide

/-- C6 counterexample: member 12 (user 5) submits a review for only one of the
two required tasks of an assignment that is already COMPLETED; the call
succeeds, afterwards every assignment of nomination 20 is COMPLETED, yet the
nomination is not promoted to HR_REVIEW (it stays FINALIZED), because the
cascade-promotion check only runs when the submitting member has reviewed
every required task. -/
theorem c6_counterexample :
    (submit_panel_review c6DB 30 13 5 3 2000).toOption.map (fun db =>
      (allAssignmentsCompleted db 20, nominationStatus db 20)) =
      some (true, some "FINALIZED") := by decide

unseal List.merge List.mergeSort in
/-- C9 counterexample: nomination 60 has one review with score 0, so its true
average is 0, but the response renders average_score as null (Python falsiness
of Decimal 0), not as the true average of its review scores. -/
theorem c9_counterexample :
    (get_nominations_with_scores c9DB 50).toOption =
      some [{ nomination_id := 60, average_score := none, review_count := 1 }] ∧
    specAverageScore c9DB 60 = some 0 := by
  have hrev : reviewsOfNomination c9DB 60 = [⟨64, 63, 62, 65, 0, 1100⟩] := by decide
  have hrow : scoreRowOf c9DB ⟨60, 50, 6, 3, 2, "HR_REVIEW", some 1000, 1000⟩ =
      { nomination_id := 60, average_score := none, review_count := 1 } := by
    simp [scoreRowOf, hrev]
  have hcy : findCycle c9DB 50 = some ⟨50, 0, 20, CycleStatus.CLOSED, none, true⟩ := by
    decide
  have hfil : c9DB.nominations.filter (fun n =>
      n.cycle_id == 50 &&
      (["PANEL_REVIEW", "HR_REVIEW", "FINALIZED"] : List String).contains n.status) =
      [⟨60, 50, 6, 3, 2, "HR_REVIEW", some 1000, 1000⟩] := by decide
  constructor
  · simp only [get_nominations_with_scores, hcy]
    rw [hfil]
    simp [hrow, Except.toOption]
  · simp [specAverageScore, hrev]

/-- find? commutes with a map that does not affect the predicate. -/
theorem find?_map_congr {α : Type} (l : List α) (f : α → α) (p : α → Bool)
    (hp : ∀ x, p (f x) = p x) :
    (l.map f).find? p = (l.find? p).map f := by
  induction l with
  | nil => rfl
  | cons x xs ih =>
    by_cases hx : p x = true
    · rw [List.map_cons, List.find?_cons_of_pos _ (by rw [hp]; exact hx),
        List.find?_cons_of_pos _ hx]
      rfl
    · rw [List.map_cons,
        List.find?_cons_of_neg _ (by rw [hp]; exact Bool.not_eq_true _ ▸ hx),
        List.find?_cons_of_neg _ hx, ih]

theorem findCycle_id {db : DB} {cid : Nat} {c : Cycle}
    (h : findCycle db cid = some c) : c.id = cid := by
  simpa using List.find?_some h

theorem findNomination_id {db : DB} {nid : Nat} {n : Nomination}
    (h : findNomination db nid = some n) : n.id = nid := by
  simpa using List.find?_some h

theorem findAssignment_id {db : DB} {aid : Nat} {a : PanelAssignment}
    (h : findAssignment db aid = some a) : a.id = aid := by
  simpa using List.find?_some h

/-- Overwriting one nomination's status updates exactly the looked-up row. -/
theorem nominationStatus_set (db : DB) (nid : Nat) (s : String) :
    nominationStatus (setNominationStatus db nid s) nid =
      (nominationStatus db nid).map (fun _ => s) := by
  unfold nominationStatus setNominationStatus findNomination
  rw [find?_map_congr]
  · cases h : db.nominations.find? (fun n => n.id == nid) with
    | none => rfl
    | some nom =>
      have hid := List.find?_some h
      simp only at hid
      have hid2 : nom.id = nid := by simpa using hid
      simp [hid2]
  · intro x
    by_cases hx : (x.id == nid) = true
    · simp [hx]
    · simp [hx]

/-- Membership in the cycle list after a setCycle commit. -/
theorem mem_setCycle_cases {db : DB} {c x : Cycle} (hx : x ∈ (setCycle db c).cycles) :
    x = c ∨ (x ∈ db.cycles ∧ x.id ≠ c.id) := by
  simp only [setCycle, List.mem_map] at hx
  obtain ⟨y, hy, hxy⟩ := hx
  by_cases h : (y.id == c.id) = true
  · left
    rw [← hxy, if_pos h]
  · right
    rw [← hxy, if_neg h]
    exact ⟨hy, by simpa using h⟩

/-- C7 (confirmed): with the nomination and its cycle present and a valid
target status, update_nomination_status fails with a 400 StateError on a
FINALIZED target unless the cycle is CLOSED or FINALIZED (first gate) and the
nomination is in HR_REVIEW (second gate); any other valid target — and a
FINALIZED target meeting both gates — is applied unconditionally. -/
theorem c7_update_status_finalized_gate (db : DB) (nid : Nat) (s : String)
    (nom : Nomination) (cy : Cycle)
    (hs : validNominationStatuses.contains s = true)
    (hn : findNomination db nid = some nom)
    (hc : findCycle db nom.cycle_id = some cy) :
    ((s = "FINALIZED" ∧ cy.status ≠ CycleStatus.CLOSED ∧
        cy.status ≠ CycleStatus.FINALIZED) →
      update_nomination_status db nid s =
        Except.error ⟨400, "Invalid operation",
          "Cannot finalize nominations until the nomination window is closed"⟩) ∧
    ((s = "FINALIZED" ∧
        (cy.status = CycleStatus.CLOSED ∨ cy.status = CycleStatus.FINALIZED) ∧
        nom.status ≠ "HR_REVIEW") →
      update_nomination_status db nid s =
        Except.error ⟨400, "Invalid operation",
          "Can only finalize nominations that are in HR_REVIEW status"⟩) ∧
    ((s = "FINALIZED" →
        (cy.status = CycleStatus.CLOSED ∨ cy.status = CycleStatus.FINALIZED) ∧
        nom.status = "HR_REVIEW") →
      update_nomination_status db nid s = Except.ok (setNominationStatus db nid s) ∧
      nominationStatus (setNominationStatus db nid s) nid = some s) := by
  refine ⟨?_, ?_, ?_⟩
  · rintro ⟨h1, h2, h3⟩
    unfold update_nomination_status
    simp [validNominationStatuses, hn, hc, h1, h2, h3]
  · rintro ⟨h1, h2, h3⟩
    unfold update_nomination_status
    rcases h2 with h2 | h2 <;>
      simp [validNominationStatuses, hn, hc, h1, h2, h3]
  · intro himp
    by_cases hF : s = "FINALIZED"
    · obtain ⟨hcy, hnom⟩ := himp hF
      constructor
      · unfold update_nomination_status
        rcases hcy with hcy | hcy <;>
          simp [validNominationStatuses, hn, hc, hF, hcy, hnom]
      · rw [nominationStatus_set]
        simp [nominationStatus, hn]
    · have hmem : s = "SUBMITTED" ∨ s = "PANEL_REVIEW" ∨ s = "HR_REVIEW" ∨
          s = "FINALIZED" := by
        simpa [validNominationStatuses] using hs
      constructor
      · unfold update_nomination_status
        rcases hmem with h | h | h | h <;> first
          | exact absurd h hF
          | simp [validNominationStatuses, hn, hc, h]
      · rw [nominationStatus_set]
        simp [nominationStatus, hn]

def c7WitNomination : Nomination := ⟨60, 50, 6, 3, 2, "HR_REVIEW", some 1000, 1000⟩

def c7WitCycle : Cycle := ⟨50, 0, 20, CycleStatus.CLOSED, none, true⟩

theorem c7_witness :
    update_nomination_status c9DB 60 "FINALIZED" =
      Except.ok (setNominationStatus c9DB 60 "FINALIZED") ∧
    nominationStatus (setNominationStatus c9DB 60 "FINALIZED") 60 =
      some "FINALIZED" :=
  (c7_update_status_finalized_gate c9DB 60 "FINALIZED" c7WitNomination c7WitCycle
      (by decide) (by decide) (by decide)).2.2
    (fun _ => ⟨Or.inl rfl, rfl⟩)

/-- C10 (confirmed): finalize_awards succeeds for any existing cycle that is
not already FINALIZED — its status may be DRAFT, OPEN or CLOSED — as soon as
at least one active award exists; on success every active award of the cycle
receives the same finalized_at stamp and the cycle status is set directly to
FINALIZED. -/
theorem c10_finalize_awards (db : DB) (cid : Nat) (now : Int) (c : Cycle)
    (hc : findCycle db cid = some c)
    (hnf : c.status ≠ CycleStatus.FINALIZED)
    (hA : activeAwardsOfCycle db cid ≠ []) :
    ∃ db2, finalize_awards db cid now =
        Except.ok (db2, (activeAwardsOfCycle db cid).length) ∧
      (∀ c2 ∈ db2.cycles, c2.id = cid → c2.status = CycleStatus.FINALIZED) ∧
      (∀ a ∈ db2.awards, a.cycle_id = cid → a.is_active = true →
        a.finalized_at = some now) := by
  have hne : (activeAwardsOfCycle db cid).isEmpty = false :=
    List.isEmpty_eq_false.mpr hA
  refine ⟨setCycle
      { db with awards := db.awards.map (fun a =>
          if a.cycle_id == cid && a.is_active then { a with finalized_at := some now }
          else a) }
      { c with status := CycleStatus.FINALIZED }, ?_, ?_, ?_⟩
  · unfold finalize_awards
    simp only [hc]
    rw [if_neg hnf, if_neg (by simp [hne])]
  · intro c2 hc2 hid
    rcases mem_setCycle_cases hc2 with h | ⟨_, hne2⟩
    · rw [h]
    · exact absurd (hid.trans (findCycle_id hc).symm) hne2
  · intro a ha hacid hact
    simp only [setCycle] at ha
    rcases List.mem_map.mp ha with ⟨x, hx, hgx⟩
    by_cases hcond : (x.cycle_id == cid && x.is_active) = true
    · rw [← hgx, if_pos hcond]
    · exfalso
      apply hcond
      have hax : a = x := by rw [← hgx, if_neg hcond]
      rw [hax] at hacid hact
      simp [hacid, hact]

theorem pairInvB_iff (l : List Nomination) :
    pairInvB l = true ↔ l.Pairwise (fun a b => nomsConflict a b = false) := by
  induction l with
  | nil => simp [pairInvB]
  | cons x xs ih =>
    simp [pairInvB, List.pairwise_cons, ih, List.all_eq_true, Bool.not_eq_true']

theorem pairInvB_sublist {l1 l2 : List Nomination} (hs : l1.Sublist l2)
    (h : pairInvB l2 = true) : pairInvB l1 = true := by
  rw [pairInvB_iff] at h ⊢
  exact List.Pairwise.sublist hs h

theorem pairInvB_append_one {l : List Nomination} {x : Nomination}
    (h : pairInvB l = true) (hx : ∀ y ∈ l, nomsConflict y x = false) :
    pairInvB (l ++ [x]) = true := by
  rw [pairInvB_iff] at h ⊢
  rw [List.pairwise_append]
  refine ⟨h, List.pairwise_singleton _ _, ?_⟩
  intro a ha b hb
  rw [List.mem_singleton] at hb
  rw [hb]
  exact hx a ha

/-- Shape of a successful submit_nomination: the duplicate check passed and
exactly one SUBMITTED nomination for (payload.cycle_id, payload.nominee_id)
was appended. -/
theorem submit_nomination_ok_shape {db : DB} {p : NominationCreate} {uid : Nat}
    {today now : Int} {db2 : DB} {nid : Nat}
    (h : submit_nomination db p uid today now = Except.ok (db2, nid)) :
    findExistingNonTerminal db p.cycle_id p.nominee_id = none ∧
    db2.nominations = db.nominations ++
      [⟨db.next_id, p.cycle_id, p.form_id, p.nominee_id, uid, "SUBMITTED",
        some now, now⟩] := by
  unfold submit_nomination at h
  repeat
    split at h
    · exact Except.noConfusion h
  dsimp only [] at h
  split at h
  · exact Except.noConfusion h
  rw [Except.ok.injEq, Prod.mk.injEq] at h
  refine ⟨by assumption, ?_⟩
  rw [← h.1]

/-- Shape of a successful delete_nomination: that nomination's row is gone. -/
theorem delete_nomination_ok_shape {db : DB} {nid : Nat} {db2 : DB}
    (h : delete_nomination db nid = Except.ok db2) :
    db2.nominations = db.nominations.filter (fun n => n.id != nid) := by
  unfold delete_nomination at h
  repeat
    split at h
    · exact Except.noConfusion h
  dsimp only [] at h
  rw [Except.ok.injEq] at h
  rw [← h]

/-- Shape of a successful delete_all_nominations_for_cycle: either the cycle
had no nominations (store unchanged) or all of its nominations are gone. -/
theorem delete_all_ok_shape {db : DB} {cid : Nat} {db2 : DB} {k : Nat}
    (h : delete_all_nominations_for_cycle db cid = Except.ok (db2, k)) :
    db2.nominations = db.nominations ∨
    db2.nominations = db.nominations.filter (fun n => n.cycle_id != cid) := by
  unfold delete_all_nominations_for_cycle at h
  split at h
  · exact Except.noConfusion h
  · dsimp only [] at h
    split at h
    · left
      rw [Except.ok.injEq, Prod.mk.injEq] at h
      rw [← h.1]
    · split at h
      · exact Except.noConfusion h
      · right
        rw [Except.ok.injEq, Prod.mk.injEq] at h
        rw [← h.1]

/-- C1 (corrected, amended): submit_nomination and the two delete operations
preserve the at-most-one-non-terminal-nomination-per-(cycle, nominee)
invariant; per the counterexample, update_nomination_status and
assign_panels_to_nomination do not. -/
theorem c1_amended_preservation :
    (∀ (db : DB) (p : NominationCreate) (uid : Nat) (today now : Int)
        (db2 : DB) (nid : Nat),
      pairInvariant db →
      submit_nomination db p uid today now = Except.ok (db2, nid) →
      pairInvariant db2) ∧
    (∀ (db : DB) (nid : Nat) (db2 : DB),
      pairInvariant db → delete_nomination db nid = Except.ok db2 →
      pairInvariant db2) ∧
    (∀ (db : DB) (cid : Nat) (db2 : DB) (k : Nat),
      pairInvariant db →
      delete_all_nominations_for_cycle db cid = Except.ok (db2, k) →
      pairInvariant db2) := by
  refine ⟨?_, ?_, ?_⟩
  · intro db p uid today now db2 nid hinv h
    obtain ⟨hnone, hnoms⟩ := submit_nomination_ok_shape h
    unfold pairInvariant at hinv ⊢
    rw [hnoms]
    refine pairInvB_append_one hinv ?_
    intro y hy
    unfold findExistingNonTerminal at hnone
    have hpred := List.find?_eq_none.mp hnone y hy
    by_contra hcon
    rw [Bool.not_eq_false] at hcon
    unfold nomsConflict at hcon
    apply hpred
    simp only [Bool.and_eq_true] at hcon ⊢
    exact ⟨⟨hcon.1.1.1, hcon.1.1.2⟩, hcon.1.2⟩
  · intro db nid db2 hinv h
    unfold pairInvariant at hinv ⊢
    rw [delete_nomination_ok_shape h]
    exact pairInvB_sublist (List.filter_sublist _) hinv
  · intro db cid db2 k hinv h
    unfold pairInvariant at hinv ⊢
    rcases delete_all_ok_shape h with hsame | hfil
    · rw [hsame]; exact hinv
    · rw [hfil]
      exact pairInvB_sublist (List.filter_sublist _) hinv

theorem forall₂_map_self {α : Type} (l : List α) (f : α → α) (P : α → α → Prop)
    (h : ∀ a, P a (f a)) : List.Forall₂ P l (l.map f) := by
  induction l with
  | nil => exact List.Forall₂.nil
  | cons x xs ih => exact List.Forall₂.cons (h x) ih

theorem statusRank_le_three (s : CycleStatus) : statusRank s ≤ 3 := by
  cases s <;> simp [statusRank]

theorem dropCycleData_cycles (db : DB) (cid : Nat) :
    (dropCycleData db cid).cycles = db.cycles := rfl

/-- Shape of a successful finishCycleUpdate: the mutated cycle row (perhaps
with a new award_type_id) is committed, nothing else changes. -/
theorem finishCycleUpdate_ok {db : DB} {c : Cycle} {p : CycleUpdate} {db2 : DB}
    (h : finishCycleUpdate db c p = Except.ok db2) :
    ∃ atid, db2 = setCycle db { c with award_type_id := atid } := by
  unfold finishCycleUpdate at h
  split at h
  · refine ⟨c.award_type_id, ?_⟩
    rw [Except.ok.injEq] at h
    rw [← h]
  · split at h
    · exact Except.noConfusion h
    · rename_i atid heq2
      refine ⟨atid, ?_⟩
      rw [Except.ok.injEq] at h
      rw [← h]

/-- Shape of a successful update_cycle: the looked-up cycle row is replaced
by its patched version (dates via the patch, status as requested, possibly a
new award_type_id); the cycle list of the intermediate store is untouched
(the drop branch only deletes dependent rows), and a patch containing
end_date passed the date check. -/
theorem update_cycle_ok_shape {db : DB} {cid : Nat} {p : CycleUpdate}
    {today : Int} {db2 : DB} (h : update_cycle db cid p today = Except.ok db2) :
    ∃ (c0 : Cycle) (dbX : DB) (atid : Option Nat) (st : CycleStatus),
      findCycle db cid = some c0 ∧
      dbX.cycles = db.cycles ∧
      (p.status = none → st = c0.status) ∧
      (∀ s, p.status = some s → cycleStatusOfString s = some st) ∧
      (p.end_date.isSome = true →
        ¬(p.end_date.getD c0.end_date < p.start_date.getD c0.start_date)) ∧
      db2 = setCycle dbX
        { id := c0.id,
          start_date := p.start_date.getD c0.start_date,
          end_date := p.end_date.getD c0.end_date,
          status := st,
          award_type_id := atid,
          is_active := c0.is_active } := by
  unfold update_cycle at h
  split at h
  · exact Except.noConfusion h
  · rename_i c0 heq
    dsimp only [] at h
    split at h
    · exact Except.noConfusion h
    · rename_i hdate
      split at h
      · rename_i hpnone
        obtain ⟨atid, hdb2⟩ := finishCycleUpdate_ok h
        refine ⟨c0, db, atid, c0.status, heq, rfl, fun _ => rfl, ?_, ?_, hdb2⟩
        · intro s hps
          rw [hpnone] at hps
          exact Option.noConfusion hps
        · intro hsome
          intro hlt
          exact hdate ⟨hsome, hlt⟩
      · rename_i s hps
        split at h
        · exact Except.noConfusion h
        · rename_i st hparse
          split at h <;>
          · obtain ⟨atid, hdb2⟩ := finishCycleUpdate_ok h
            refine ⟨c0, _, atid, st, heq, ?_, ?_, ?_, ?_, hdb2⟩
            · exact dropCycleData_cycles db cid
            · intro hnone
              rw [hps] at hnone
              exact Option.noConfusion hnone
            · intro s2 hps2
              rw [hps] at hps2
              rw [← Option.some.inj hps2]
              exact hparse
            · intro hsome hlt
              exact hdate ⟨hsome, hlt⟩

/-- C2 (corrected, amended): the auto-close sweep and finalize_awards only
ever move a cycle's status forward in the DRAFT → OPEN → CLOSED → FINALIZED
order, while a successful update_cycle — including the drop-cycle path — sets
the target cycle's status to exactly the requested valid value, whatever the
direction. -/
theorem c2_amended_forward :
    (∀ (db : DB) (today : Int),
      List.Forall₂
        (fun c c2 => c2.id = c.id ∧ statusRank c.status ≤ statusRank c2.status)
        db.cycles (auto_close_expired_cycles db today).1.cycles) ∧
    (∀ (db : DB) (cid : Nat) (now : Int) (db2 : DB) (k : Nat),
      finalize_awards db cid now = Except.ok (db2, k) →
      List.Forall₂
        (fun c c2 => c2.id = c.id ∧ statusRank c.status ≤ statusRank c2.status)
        db.cycles db2.cycles) ∧
    (∀ (db : DB) (cid : Nat) (p : CycleUpdate) (today : Int) (db2 : DB)
        (s : String) (st : CycleStatus),
      update_cycle db cid p today = Except.ok db2 →
      p.status = some s → cycleStatusOfString s = some st →
      ∀ c2 ∈ db2.cycles, c2.id = cid → c2.status = st) := by
  refine ⟨?_, ?_, ?_⟩
  · intro db today
    unfold auto_close_expired_cycles
    apply forall₂_map_self
    intro a
    by_cases hcond : a.status = CycleStatus.OPEN ∧ a.end_date < today
    · rw [if_pos hcond]
      exact ⟨rfl, by rw [hcond.1]; simp [statusRank]⟩
    · rw [if_neg hcond]
      exact ⟨rfl, le_refl _⟩
  · intro db cid now db2 k h
    unfold finalize_awards at h
    split at h
    · exact Except.noConfusion h
    · rename_i c heq
      split at h
      · exact Except.noConfusion h
      · dsimp only [] at h
        split at h
        · exact Except.noConfusion h
        · rw [Except.ok.injEq, Prod.mk.injEq] at h
          rw [← h.1]
          simp only [setCycle]
          apply forall₂_map_self
          intro a
          by_cases hid :
              (a.id == ({ c with status := CycleStatus.FINALIZED } : Cycle).id) = true
          · rw [if_pos hid]
            exact ⟨(beq_iff_eq.mp hid).symm, statusRank_le_three _⟩
          · rw [if_neg hid]
            exact ⟨rfl, le_refl _⟩
  · intro db cid p today db2 s st h hps hparse c2 hc2 hid
    obtain ⟨c0, dbX, atid, st0, heq, hcyc, _, hall, _, hdb2⟩ := update_cycle_ok_shape h
    have hst : st0 = st := Option.some.inj ((hall s hps).symm.trans hparse)
    rw [hdb2] at hc2
    rcases mem_setCycle_cases hc2 with hcase | ⟨hmem, hne⟩
    · rw [hcase, ← hst]
    · exfalso
      apply hne
      show c2.id = c0.id
      rw [hid, findCycle_id heq]

/-- A nomination row keeps everything but its status under setNominationStatus. -/
theorem findNomination_set (db : DB) (nid : Nat) (s : String) (nom : Nomination)
    (h : findNomination db nid = some nom) :
    findNomination (setNominationStatus db nid s) nid =
      some { nom with status := s } := by
  unfold findNomination at h
  unfold findNomination setNominationStatus
  rw [find?_map_congr]
  · rw [h]
    have hid := List.find?_some h
    simp only at hid
    have hid2 : nom.id = nid := by simpa using hid
    simp [hid2]
  · intro x
    by_cases hx : (x.id == nid) = true
    · simp [hx]
    · simp [hx]

/-- A call of assign_panels_to_nomination whose only requested panel is
already assigned fails with the 400 "No new panels assigned" error. -/
theorem assign_already_assigned_fails (db2 : DB) (nid pA uid2 : Nat)
    (n2 : Nomination) (hn2 : findNomination db2 nid = some n2)
    (hcont2 : ((db2.panel_assignments.filter
      (fun a => a.nomination_id == nid)).map (fun a => a.panel_id)).contains pA =
      true) :
    assign_panels_to_nomination db2 nid [pA] uid2 =
      Except.error ⟨400, "No new panels assigned",
        "All selected panels are already assigned to this nomination"⟩ := by
  unfold assign_panels_to_nomination
  simp only [hn2]
  have hstep2 : buildNewAssignments db2 nid uid2
      ((db2.panel_assignments.filter (fun a => a.nomination_id == nid)).map
        (fun a => a.panel_id)) [pA] db2.next_id = Except.ok ([], db2.next_id) := by
    unfold buildNewAssignments
    rw [if_pos hcont2]
    rfl
  rw [hstep2]
  rfl

/-- C8 (confirmed): starting from a store in which panel pA is not yet
assigned to nomination nid, assigning [pA] succeeds with exactly one
PENDING assignment row for (nid, pA) and forces the nomination to
PANEL_REVIEW; re-invoking the same assignment immediately fails with the 400
"No new panels assigned" error (the already-assigned panel is skipped, so the
new-assignment count is zero and no row is created — failures raise before
commit and leave the store unchanged). -/
theorem c8_assign_idempotent (db : DB) (nid pA uid uid2 : Nat)
    (nom : Nomination) (p : Panel)
    (hn : findNomination db nid = some nom)
    (hp : findPanel db pA = some p)
    (hnone : ∀ a ∈ db.panel_assignments, ¬(a.nomination_id = nid ∧ a.panel_id = pA)) :
    ∃ db2, assign_panels_to_nomination db nid [pA] uid = Except.ok db2 ∧
      (db2.panel_assignments.filter
        (fun a => a.nomination_id == nid && a.panel_id == pA)).length = 1 ∧
      (∀ a ∈ db2.panel_assignments, a.nomination_id = nid → a.panel_id = pA →
        a.status = "PENDING") ∧
      nominationStatus db2 nid = some "PANEL_REVIEW" ∧
      assign_panels_to_nomination db2 nid [pA] uid2 =
        Except.error ⟨400, "No new panels assigned",
          "All selected panels are already assigned to this nomination"⟩ := by
  have hcont : ((db.panel_assignments.filter
      (fun a => a.nomination_id == nid)).map (fun a => a.panel_id)).contains pA =
      false := by
    rw [Bool.eq_false_iff]
    intro hc
    rcases List.mem_map.mp (List.elem_iff.mp hc) with ⟨a, hamem, hapid⟩
    rcases List.mem_filter.mp hamem with ⟨ha, hanid⟩
    exact hnone a ha ⟨by simpa using hanid, hapid⟩
  have hstep : buildNewAssignments db nid uid
      ((db.panel_assignments.filter (fun a => a.nomination_id == nid)).map
        (fun a => a.panel_id)) [pA] db.next_id =
      Except.ok ([⟨db.next_id, nid, pA, uid, "PENDING", none⟩], db.next_id + 1) := by
    unfold buildNewAssignments
    rw [if_neg (by rw [hcont]; simp)]
    rw [hp]
    rfl
  have hmid : findNomination
      { db with
        panel_assignments := db.panel_assignments ++
          [⟨db.next_id, nid, pA, uid, "PENDING", none⟩],
        next_id := db.next_id + 1 } nid = some nom := hn
  refine ⟨setNominationStatus
      { db with
        panel_assignments := db.panel_assignments ++
          [⟨db.next_id, nid, pA, uid, "PENDING", none⟩],
        next_id := db.next_id + 1 } nid "PANEL_REVIEW", ?_, ?_, ?_, ?_, ?_⟩
  · unfold assign_panels_to_nomination
    simp only [hn]
    rw [hstep]
    dsimp only []
    rw [if_neg (by simp)]
  · show (List.filter _ (db.panel_assignments ++
      [⟨db.next_id, nid, pA, uid, "PENDING", none⟩])).length = 1
    rw [List.filter_append]
    have h1 : db.panel_assignments.filter
        (fun a => a.nomination_id == nid && a.panel_id == pA) = [] := by
      rw [List.filter_eq_nil_iff]
      intro a ha hpa
      simp only [Bool.and_eq_true, beq_iff_eq] at hpa
      exact hnone a ha hpa
    rw [h1]
    simp
  · intro a ha hanid hapA
    rcases List.mem_append.mp ha with hold | hnew
    · exact absurd ⟨hanid, hapA⟩ (hnone a hold)
    · rw [List.mem_singleton] at hnew
      rw [hnew]
  · rw [nominationStatus_set]
    unfold nominationStatus
    rw [hmid]
    rfl
  · refine assign_already_assigned_fails _ nid pA uid2 { nom with status := "PANEL_REVIEW" }
      (findNomination_set _ nid "PANEL_REVIEW" nom hmid) ?_
    apply List.elem_iff.mpr
    apply List.mem_map.mpr
    refine ⟨⟨db.next_id, nid, pA, uid, "PENDING", none⟩, ?_, rfl⟩
    apply List.mem_filter.mpr
    refine ⟨?_, by simp⟩
    exact List.mem_append.mpr (Or.inr (List.mem_singleton.mpr rfl))

def c8WitDB : DB :=
  { emptyDB with
    nominations := [⟨20, 50, 6, 3, 2, "HR_REVIEW", some 1000, 1000⟩],
    panels := [⟨10⟩],
    next_id := 300 }

theorem c8_witness :
    ∃ db2, assign_panels_to_nomination c8WitDB 20 [10] 1 = Except.ok db2 ∧
      (db2.panel_assignments.filter
        (fun a => a.nomination_id == 20 && a.panel_id == 10)).length = 1 ∧
      (∀ a ∈ db2.panel_assignments, a.nomination_id = 20 → a.panel_id = 10 →
        a.status = "PENDING") ∧
      nominationStatus db2 20 = some "PANEL_REVIEW" ∧
      assign_panels_to_nomination db2 20 [10] 1 =
        Except.error ⟨400, "No new panels assigned",
          "All selected panels are already assigned to this nomination"⟩ :=
  c8_assign_idempotent c8WitDB 20 10 1 1
    ⟨20, 50, 6, 3, 2, "HR_REVIEW", some 1000, 1000⟩ ⟨10⟩
    (by decide) (by decide) (by decide)

theorem upsertReview_assignments (db : DB) (aid mid tid : Nat) (score now : Int) :
    (upsertReview db aid mid tid score now).panel_assignments =
      db.panel_assignments := by
  unfold upsertReview
  split <;> rfl

theorem upsertReview_nominations (db : DB) (aid mid tid : Nat) (score now : Int) :
    (upsertReview db aid mid tid score now).nominations = db.nominations := by
  unfold upsertReview
  split <;> rfl

theorem upsertReview_tasks (db : DB) (aid mid tid : Nat) (score now : Int) :
    (upsertReview db aid mid tid score now).panel_tasks = db.panel_tasks := by
  unfold upsertReview
  split <;> rfl

theorem requiredTaskIds_upsert (db : DB) (aid mid tid : Nat) (score now : Int)
    (pid : Nat) :
    requiredTaskIds (upsertReview db aid mid tid score now) pid =
      requiredTaskIds db pid := by
  unfold requiredTaskIds
  rw [upsertReview_tasks]

theorem findAssignment_setCompleted (db : DB) (aid : Nat) (now : Int)
    (a : PanelAssignment) (h : findAssignment db aid = some a) :
    findAssignment (setAssignmentCompleted db aid now) aid =
      some { a with status := "COMPLETED", completed_at := some now } := by
  unfold findAssignment at h
  unfold findAssignment setAssignmentCompleted
  rw [find?_map_congr]
  · rw [h]
    have hid := List.find?_some h
    simp only at hid
    have hid2 : a.id = aid := by simpa using hid
    simp [hid2]
  · intro x
    by_cases hx : (x.id == aid) = true
    · simp [hx]
    · simp [hx]

/-- C6 (corrected, amended): after a successful submit_panel_review by the
member m of user uid on assignment aid, writing task tid — when m's reviewed
tasks (after the upsert) cover every required task of the panel, the
assignment is marked COMPLETED with completed_at = now, and the nomination is
promoted to HR_REVIEW exactly when every assignment of the nomination is then
COMPLETED; when the subset condition fails, the assignment rows and every
nomination status are left untouched, even if every assignment is already
COMPLETED (which is what refutes the original claim). -/
theorem c6_amended_autocomplete (db : DB) (aid tid uid : Nat) (score now : Int)
    (db2 : DB) (a : PanelAssignment) (m : PanelMember)
    (hA : findAssignment db aid = some a)
    (hM : findPanelMember db a.panel_id uid = some m)
    (hok : submit_panel_review db aid tid uid score now = Except.ok db2) :
    (subsetOf (requiredTaskIds db a.panel_id)
        (reviewedTaskIds (upsertReview db aid m.id tid score now) aid m.id) = true →
      findAssignment db2 aid =
        some { a with status := "COMPLETED", completed_at := some now } ∧
      (allAssignmentsCompleted db2 a.nomination_id = true →
        nominationStatus db2 a.nomination_id =
          (nominationStatus db a.nomination_id).map (fun _ => "HR_REVIEW")) ∧
      (allAssignmentsCompleted db2 a.nomination_id = false →
        db2.nominations = db.nominations)) ∧
    (subsetOf (requiredTaskIds db a.panel_id)
        (reviewedTaskIds (upsertReview db aid m.id tid score now) aid m.id) = false →
      db2.panel_assignments = db.panel_assignments ∧
      db2.nominations = db.nominations) := by
  unfold submit_panel_review at hok
  simp only [hA, hM] at hok
  split at hok
  · exact Except.noConfusion hok
  · split at hok
    · exact Except.noConfusion hok
    · rw [requiredTaskIds_upsert] at hok
      have hA1 : findAssignment (upsertReview db aid m.id tid score now) aid =
          some a := by
        unfold findAssignment
        rw [upsertReview_assignments]
        exact hA
      split at hok
      · rename_i hsub
        split at hok
        · rename_i hall
          rw [Except.ok.injEq] at hok
          constructor
          · intro _
            refine ⟨?_, ?_, ?_⟩
            · rw [← hok]
              show findAssignment (setAssignmentCompleted
                (upsertReview db aid m.id tid score now) aid now) aid = _
              exact findAssignment_setCompleted _ aid now a hA1
            · intro _
              rw [← hok]
              rw [nominationStatus_set]
              have hsame : nominationStatus (setAssignmentCompleted
                  (upsertReview db aid m.id tid score now) aid now) a.nomination_id =
                  nominationStatus db a.nomination_id := by
                unfold nominationStatus findNomination
                rw [show (setAssignmentCompleted
                    (upsertReview db aid m.id tid score now) aid now).nominations =
                    db.nominations from upsertReview_nominations db aid m.id tid score now]
              rw [hsame]
            · intro hfalse
              exfalso
              rw [← hok] at hfalse
              rw [show allAssignmentsCompleted (setNominationStatus
                  (setAssignmentCompleted (upsertReview db aid m.id tid score now)
                    aid now) a.nomination_id "HR_REVIEW") a.nomination_id =
                  allAssignmentsCompleted (setAssignmentCompleted
                    (upsertReview db aid m.id tid score now) aid now) a.nomination_id
                  from rfl] at hfalse
              rw [hall] at hfalse
              exact Bool.noConfusion hfalse
          · intro hfalse
            rw [hsub] at hfalse
            exact Bool.noConfusion hfalse
        · rename_i hall
          rw [Except.ok.injEq] at hok
          constructor
          · intro _
            refine ⟨?_, ?_, ?_⟩
            · rw [← hok]
              exact findAssignment_setCompleted _ aid now a hA1
            · intro htrue
              exfalso
              rw [← hok] at htrue
              exact hall htrue
            · intro _
              rw [← hok]
              show (setAssignmentCompleted (upsertReview db aid m.id tid score now)
                aid now).nominations = db.nominations
              exact upsertReview_nominations db aid m.id tid score now
          · intro hfalse
            rw [hsub] at hfalse
            exact Bool.noConfusion hfalse
      · rename_i hsub
        rw [Except.ok.injEq] at hok
        constructor
        · intro htrue
          exact absurd htrue hsub
        · intro _
          rw [← hok]
          exact ⟨upsertReview_assignments db aid m.id tid score now,
            upsertReview_nominations db aid m.id tid score now⟩

/-- Scenario C of the spec: a PENDING assignment whose panel has two required
tasks; member 11 (user 4) already reviewed task 14 and now submits task 13. -/
def c6WitDB : DB :=
  { emptyDB with
    users := [⟨4, UserRole.PANEL, true⟩],
    nominations := [⟨20, 50, 6, 3, 2, "PANEL_REVIEW", some 1000, 1000⟩],
    panels := [⟨10⟩],
    panel_members := [⟨11, 10, 4⟩],
    panel_tasks := [⟨13, 10, true⟩, ⟨14, 10, true⟩],
    panel_assignments := [⟨30, 20, 10, 1, "PENDING", none⟩],
    panel_reviews := [⟨31, 30, 11, 14, 4, 1300⟩],
    next_id := 300 }

def c6WitResult : DB :=
  { c6WitDB with
    nominations := [⟨20, 50, 6, 3, 2, "HR_REVIEW", some 1000, 1000⟩],
    panel_assignments := [⟨30, 20, 10, 1, "COMPLETED", some 2000⟩],
    panel_reviews := [⟨31, 30, 11, 14, 4, 1300⟩, ⟨300, 30, 11, 13, 5, 2000⟩],
    next_id := 301 }

theorem c6_amended_witness :
    findAssignment c6WitResult 30 =
      some { (⟨30, 20, 10, 1, "PENDING", none⟩ : PanelAssignment) with
        status := "COMPLETED", completed_at := some 2000 } ∧
    nominationStatus c6WitResult 20 =
      (nominationStatus c6WitDB 20).map (fun _ => "HR_REVIEW") := by
  have h := c6_amended_autocomplete c6WitDB 30 13 4 5 2000 c6WitResult
    ⟨30, 20, 10, 1, "PENDING", none⟩ ⟨11, 10, 4⟩ (by decide) (by decide) (by rfl)
  have h1 := h.1 (by decide)
  exact ⟨h1.1, h1.2.1 (by decide)⟩

/-- The PANEL subquery characterised: a nomination id is in it exactly when
some assignment of that nomination has at least one review by anyone. -/
theorem contains_reviewedNominationIds (db : DB) (i : Nat) :
    (reviewedNominationIds db).contains i = true ↔
      ∃ a ∈ db.panel_assignments, a.nomination_id = i ∧
        ∃ r ∈ db.panel_reviews, r.panel_assignment_id = a.id := by
  unfold reviewedNominationIds
  rw [List.elem_iff]
  constructor
  · intro hmem
    rcases List.mem_map.mp hmem with ⟨a, hafil, haid⟩
    rcases List.mem_filter.mp hafil with ⟨ha, hany⟩
    rcases List.any_eq_true.mp hany with ⟨r, hr, hrid⟩
    exact ⟨a, ha, haid, r, hr, by simpa using hrid⟩
  · rintro ⟨a, ha, haid, r, hr, hrid⟩
    apply List.mem_map.mpr
    refine ⟨a, ?_, haid⟩
    apply List.mem_filter.mpr
    refine ⟨ha, ?_⟩
    apply List.any_eq_true.mpr
    exact ⟨r, hr, by simpa using hrid⟩

/-- C5 (corrected, amended): for a PANEL caller, list_nominations returns
exactly the nominations matching the optional cycle and (non-falsy) status
filters that are tied to a panel assignment having at least one review by any
panel member; the caller's identity plays no part. -/
theorem c5_amended_panel_filter (db : DB) (user : User) (cf : Option Nat)
    (sf : Option String) (n : Nomination) (hrole : user.role = UserRole.PANEL) :
    n ∈ list_nominations db user cf sf ↔
      (n ∈ db.nominations ∧
       (∀ c, cf = some c → n.cycle_id = c) ∧
       (∀ s, sf = some s → s ≠ "" → n.status = s) ∧
       ∃ a ∈ db.panel_assignments, a.nomination_id = n.id ∧
         ∃ r ∈ db.panel_reviews, r.panel_assignment_id = a.id) := by
  have hq1 : ∀ l : List Nomination,
      (n ∈ (match cf with
        | some c => l.filter (fun m : Nomination => m.cycle_id == c)
        | none => l)) ↔ n ∈ l ∧ (∀ c, cf = some c → n.cycle_id = c) := by
    intro l
    rcases cf with _ | c
    · simp
    · show (n ∈ l.filter (fun m : Nomination => m.cycle_id == c)) ↔ _
      rw [List.mem_filter]
      constructor
      · rintro ⟨h1, h2⟩
        refine ⟨h1, fun c2 hc2 => ?_⟩
        rw [← Option.some.inj hc2]
        exact beq_iff_eq.mp h2
      · rintro ⟨h1, h2⟩
        exact ⟨h1, beq_iff_eq.mpr (h2 c rfl)⟩
  have hq2 : ∀ l : List Nomination,
      (n ∈ (match sf with
        | some s => if s = "" then l
            else l.filter (fun m : Nomination => m.status == s)
        | none => l)) ↔ n ∈ l ∧ (∀ s, sf = some s → s ≠ "" → n.status = s) := by
    intro l
    rcases sf with _ | s
    · simp
    · show (n ∈ if s = "" then l
          else l.filter (fun m : Nomination => m.status == s)) ↔ _
      by_cases hs : s = ""
      · rw [hs, if_pos rfl]
        constructor
        · intro h1
          refine ⟨h1, fun s2 hs2 hne => ?_⟩
          rw [← Option.some.inj hs2] at hne
          exact absurd rfl hne
        · exact fun h => h.1
      · rw [if_neg hs, List.mem_filter]
        constructor
        · rintro ⟨h1, h2⟩
          refine ⟨h1, fun s2 hs2 hne => ?_⟩
          rw [← Option.some.inj hs2]
          exact beq_iff_eq.mp h2
        · rintro ⟨h1, h2⟩
          exact ⟨h1, beq_iff_eq.mpr (h2 s rfl hs)⟩
  simp only [list_nominations]
  rw [hrole, List.mem_mergeSort]
  rw [if_neg (show ¬(UserRole.PANEL = UserRole.MANAGER) by simp)]
  rw [if_pos (show UserRole.PANEL = UserRole.PANEL from rfl)]
  rw [List.mem_filter, hq2, hq1]
  constructor
  · rintro ⟨⟨⟨h1, h2⟩, h3⟩, h4⟩
    exact ⟨h1, h2, h3, (contains_reviewedNominationIds db n.id).mp h4⟩
  · rintro ⟨h1, h2, h3, h4⟩
    exact ⟨⟨⟨h1, h2⟩, h3⟩, (contains_reviewedNominationIds db n.id).mpr h4⟩

theorem c5_amended_witness :
    (⟨60, 50, 6, 3, 2, "PANEL_REVIEW", some 1000, 1000⟩ : Nomination) ∈
      list_nominations c5DB c5Caller none none := by
  apply (c5_amended_panel_filter c5DB c5Caller none none _ rfl).mpr
  refine ⟨by decide, by simp, by simp, ?_⟩
  exact ⟨⟨63, 60, 61, 1, "PENDING", none⟩, by decide, rfl,
    ⟨64, 63, 62, 65, 4, 1100⟩, by decide, rfl⟩

/-- C9 (corrected, amended): the rows of get_nominations_with_scores are
sorted descending by the null-as-0 sort key, and each row's displayed
average_score is the Python rendering of the nomination's true average:
null when no reviews exist or when the true average equals 0, the true
average otherwise. -/
theorem c9_amended_scores (db : DB) (cid : Nat) (rows : List ScoreRow)
    (h : get_nominations_with_scores db cid = Except.ok rows) :
    rows.Pairwise (fun x y => scoreSortKey y ≤ scoreSortKey x) ∧
    ∀ row ∈ rows, ∃ n ∈ db.nominations, n.cycle_id = cid ∧
      row.nomination_id = n.id ∧
      row.average_score = pyDisplay (specAverageScore db n.id) ∧
      row.review_count = (reviewsOfNomination db n.id).length := by
  unfold get_nominations_with_scores at h
  split at h
  · exact Except.noConfusion h
  · dsimp only [] at h
    rw [Except.ok.injEq] at h
    subst h
    constructor
    · have htrans : ∀ a b c : ScoreRow,
          decide (scoreSortKey b ≤ scoreSortKey a) = true →
          decide (scoreSortKey c ≤ scoreSortKey b) = true →
          decide (scoreSortKey c ≤ scoreSortKey a) = true := by
        intro a b c h1 h2
        exact decide_eq_true
          (le_trans (of_decide_eq_true h2) (of_decide_eq_true h1))
      have htotal : ∀ a b : ScoreRow,
          (decide (scoreSortKey b ≤ scoreSortKey a) ||
            decide (scoreSortKey a ≤ scoreSortKey b)) = true := by
        intro a b
        by_cases hab : scoreSortKey b ≤ scoreSortKey a
        · simp [hab]
        · simp [le_of_not_le hab]
      have hs := @List.sorted_mergeSort ScoreRow
        (fun x y => decide (scoreSortKey y ≤ scoreSortKey x)) htrans htotal
      exact (hs _).imp (fun hd => of_decide_eq_true hd)
    · intro row hrow
      rw [List.mem_mergeSort] at hrow
      rcases List.mem_map.mp hrow with ⟨n, hn, heq⟩
      rcases List.mem_filter.mp hn with ⟨hmem, hpred⟩
      simp only [Bool.and_eq_true, beq_iff_eq] at hpred
      refine ⟨n, hmem, hpred.1, ?_, ?_, ?_⟩ <;> rw [← heq] <;> rfl

def c9WitDB : DB :=
  { emptyDB with
    cycles := [⟨50, 0, 20, CycleStatus.CLOSED, none, true⟩],
    nominations := [⟨60, 50, 6, 3, 2, "HR_REVIEW", some 1000, 1000⟩],
    next_id := 200 }

unseal List.merge List.mergeSort in
theorem c9_amended_witness :
    ([{ nomination_id := 60, average_score := none, review_count := 0 }] :
        List ScoreRow).Pairwise (fun x y => scoreSortKey y ≤ scoreSortKey x) ∧
    ∀ row ∈ ([{ nomination_id := 60, average_score := none, review_count := 0 }] :
        List ScoreRow), ∃ n ∈ c9WitDB.nominations, n.cycle_id = 50 ∧
      row.nomination_id = n.id ∧
      row.average_score = pyDisplay (specAverageScore c9WitDB n.id) ∧
      row.review_count = (reviewsOfNomination c9WitDB n.id).length :=
  c9_amended_scores c9WitDB 50
    [{ nomination_id := 60, average_score := none, review_count := 0 }] (by rfl)

def c10WitDB : DB :=
  { emptyDB with
    cycles := [⟨70, 0, 20, CycleStatus.DRAFT, none, true⟩],
    nominations := [⟨20, 70, 6, 3, 2, "FINALIZED", some 1000, 1000⟩],
    awards := [⟨71, 70, 20, 3, true, none⟩],
    next_id := 200 }

def c2WitFinalDB : DB :=
  { c10WitDB with
    cycles := [⟨70, 0, 20, CycleStatus.FINALIZED, none, true⟩],
    awards := [⟨71, 70, 20, 3, true, some 5000⟩] }

def c2WitUpdDB : DB :=
  { c2DB with cycles := [⟨40, 0, 20, CycleStatus.DRAFT, none, true⟩] }

theorem c2_amended_witness :
    List.Forall₂
      (fun c c2 => c2.id = c.id ∧ statusRank c.status ≤ statusRank c2.status)
      c10WitDB.cycles c2WitFinalDB.cycles ∧
    (∀ c2 ∈ c2WitUpdDB.cycles, c2.id = 40 → c2.status = CycleStatus.DRAFT) :=
  ⟨c2_amended_forward.2.1 c10WitDB 70 5000 c2WitFinalDB 1 (by rfl),
   c2_amended_forward.2.2 c2DB 40 ⟨none, none, some "DRAFT", none, none⟩ 10
     c2WitUpdDB "DRAFT" CycleStatus.DRAFT (by rfl) rfl rfl⟩

/-- C4 (corrected, amended): start_date ≤ end_date is preserved by every
successful create_cycle and by every successful update_cycle whose patch
contains end_date; per the counterexample, a start_date-only patch can break
it. -/
theorem c4_amended_dates :
    (∀ (db : DB) (p : CycleCreate) (db2 : DB) (cid : Nat),
      create_cycle db p = Except.ok (db2, cid) →
      (∀ c ∈ db.cycles, c.start_date ≤ c.end_date) →
      ∀ c ∈ db2.cycles, c.start_date ≤ c.end_date) ∧
    (∀ (db : DB) (cid : Nat) (p : CycleUpdate) (today : Int) (db2 : DB),
      update_cycle db cid p today = Except.ok db2 →
      p.end_date.isSome = true →
      (∀ c ∈ db.cycles, c.start_date ≤ c.end_date) →
      ∀ c ∈ db2.cycles, c.start_date ≤ c.end_date) := by
  constructor
  · intro db p db2 cid h hall c hc
    unfold create_cycle at h
    split at h
    · exact Except.noConfusion h
    · rename_i hdate
      split at h
      · exact Except.noConfusion h
      · split at h
        · exact Except.noConfusion h
        · rw [Except.ok.injEq, Prod.mk.injEq] at h
          rw [← h.1] at hc
          simp only at hc
          rcases List.mem_append.mp hc with hold | hnew
          · exact hall c hold
          · rw [List.mem_singleton] at hnew
            rw [hnew]
            simpa using Int.not_lt.mp hdate
  · intro db cid p today db2 h hsome hall c hc
    obtain ⟨c0, dbX, atid, st0, heq, hcyc, _, _, hdate, hdb2⟩ := update_cycle_ok_shape h
    rw [hdb2] at hc
    rcases mem_setCycle_cases hc with hcase | ⟨hmem, _⟩
    · rw [hcase]
      simpa using Int.not_lt.mp (hdate hsome)
    · rw [hcyc] at hmem
      exact hall c hmem

def c4WitCreateDB : DB :=
  { emptyDB with cycles := [⟨1, 0, 20, CycleStatus.DRAFT, none, true⟩], next_id := 2 }

def c4WitUpdDB : DB :=
  { c4DB with cycles := [⟨42, 0, 15, CycleStatus.OPEN, none, true⟩] }

theorem c4_amended_witness :
    (∀ c ∈ c4WitCreateDB.cycles, c.start_date ≤ c.end_date) ∧
    (∀ c ∈ c4WitUpdDB.cycles, c.start_date ≤ c.end_date) :=
  ⟨c4_amended_dates.1 emptyDB ⟨0, 20, none, none⟩ c4WitCreateDB 1 (by rfl)
     (by decide),
   c4_amended_dates.2 c4DB 42 ⟨none, some 15, none, none, none⟩ 5 c4WitUpdDB
     (by rfl) rfl (by decide)⟩

def c1WitnessDB : DB :=
  { emptyDB with
    users := [⟨2, UserRole.MANAGER, true⟩, ⟨3, UserRole.EMPLOYEE, true⟩],
    forms := [⟨6, true⟩],
    cycles := [⟨90, 0, 20, CycleStatus.OPEN, none, true⟩],
    next_id := 100 }

def c1WitnessResult : DB :=
  { c1WitnessDB with
    nominations := [⟨100, 90, 6, 3, 2, "SUBMITTED", some 1000, 1000⟩],
    next_id := 101 }

theorem c1_amended_witness :
    pairInvariant c1WitnessResult ∧
    pairInvariant { c1WitnessResult with nominations := ([] : List Nomination) } := by
  have h1 : pairInvariant c1WitnessResult :=
    c1_amended_preservation.1 c1WitnessDB ⟨90, 6, 3, []⟩ 2 10 1000 c1WitnessResult
      100 (by unfold pairInvariant; decide) (by rfl)
  have h3 : pairInvariant { c1WitnessResult with nominations := ([] : List Nomination) } :=
    c1_amended_preservation.2.2 c1WitnessResult 90
      { c1WitnessResult with nominations := ([] : List Nomination) } 1 h1 (by rfl)
  exact ⟨h1, h3⟩

theorem c10_witness :
    ∃ db2, finalize_awards c10WitDB 70 5000 =
        Except.ok (db2, (activeAwardsOfCycle c10WitDB 70).length) ∧
      (∀ c2 ∈ db2.cycles, c2.id = 70 → c2.status = CycleStatus.FINALIZED) ∧
      (∀ a ∈ db2.awards, a.cycle_id = 70 → a.is_active = true →
        a.finalized_at = some 5000) :=
  c10_finalize_awards c10WitDB 70 5000 ⟨70, 0, 20, CycleStatus.DRAFT, none, true⟩
    (by decide) (by decide) (by decide)

end Awards
